import Mathlib

/-!
# Launch Readiness Scoring Engine and Workflow Orchestrator — verification

Shallow embedding of the core of the `ship-toolkit` repository:

* `src/lib/launch/reporter.ts` (the validator part): `calculateSectionScore`,
  the eight check providers `checkAssets` … `checkLegal`, and
  `runLaunchChecklist`.
* `src/unnamed/part_011` (orchestrator + workflow state manager):
  `runCompleteWorkflow` with its five step functions, `createWorkflowState`,
  `updateWorkflowState`, `canResumeWorkflow`, `saveToHistory`.

Modelling conventions:

* Filesystem and tool observations (`existsSync`, `glob` result counts, file
  contents, `detectFramework`) are inputs gathered in environment structures;
  the providers and step bodies are pure functions of those inputs.
* JavaScript exceptions are modelled with `Except String`; an `await` of a
  rejected promise propagates the error, a `try/catch` block pattern-matches
  on it.
* `Date` values are modelled as `Int` milliseconds, passed in explicitly
  (`now`, `timestamp`); wall-clock step timing fields (`startTime`,
  `endTime`, `duration`), which no claim concerns, are elided.
* `Math.round(num/den)` on non-negative operands is round-half-up, i.e.
  `⌊(2*num + den) / (2*den)⌋`, embedded as `mathRound` over `Nat`.
-/

/-- Status of one checklist item (`CheckStatus` in `validator.ts`). -/
inductive CheckStatus
  | pass
  | fail
  | warning
  | skip
deriving DecidableEq, Repr

/-- One atomic check result (`ChecklistItem`). The providers always supply a
`message`; `fix` is optional in the source and modelled with `Option`. -/
structure ChecklistItem where
  id : String
  name : String
  status : CheckStatus
  required : Bool
  message : String
  fix : Option String := none
  automated : Bool
deriving DecidableEq, Repr

/-- A named group of items with its derived score (`ChecklistSection`). -/
structure ChecklistSection where
  name : String
  items : List ChecklistItem
  score : Nat
  required : Bool
deriving DecidableEq, Repr

/-- The evaluation snapshot (`LaunchChecklist`); `timestamp` is `new Date()`
modelled as milliseconds. -/
structure LaunchChecklist where
  sections : List ChecklistSection
  overallScore : Nat
  readyToLaunch : Bool
  criticalIssues : List ChecklistItem
  warnings : List ChecklistItem
  timestamp : Int
deriving DecidableEq, Repr

/-- JS `Math.round (num / den)` for natural `num`, `den`: round half up,
`⌊num/den + 1/2⌋ = (2*num + den) / (2*den)` in `Nat` floor division. -/
def mathRound (num den : Nat) : Nat :=
  (2 * num + den) / (2 * den)

/-- `calculateSectionScore` (reporter.ts:1132–1144): empty list scores 100,
otherwise `Math.round ((passed*100 + warnings*50 + skipped*75) / total)`. -/
def calculateSectionScore (items : List ChecklistItem) : Nat :=
  if items.length = 0 then 100
  else
    let total := items.length
    let passed := (items.filter (fun i => decide (i.status = CheckStatus.pass))).length
    let warnings := (items.filter (fun i => decide (i.status = CheckStatus.warning))).length
    let skipped := (items.filter (fun i => decide (i.status = CheckStatus.skip))).length
    mathRound (passed * 100 + warnings * 50 + skipped * 75) total

/-- Point value of an item status as the spec words it:
pass=100, warning=50, skip=75, fail=0. Spec-side definition used to state
the refinement claim about `calculateSectionScore`. -/
def specItemPoints : CheckStatus → Nat
  | CheckStatus.pass => 100
  | CheckStatus.warning => 50
  | CheckStatus.skip => 75
  | CheckStatus.fail => 0

/-- Framework detection outcome (`detectFramework`), as far as the checklist
providers distinguish it. -/
inductive Framework
  | nextApp
  | nextPages
  | other
deriving DecidableEq, Repr

/-- JS `content.includes(sub)`: substring test. -/
def jsIncludes (content sub : String) : Bool :=
  decide (sub.toList <:+: content.toList)

/-- Project observations consumed by the eight check providers: `existsSync`
results, `glob` match counts, file contents (`none` = file absent), and the
detected framework. These are the external-collaborator inputs; the provider
logic itself is embedded below. -/
structure Env where
  favicon : Bool             -- public/favicon.ico exists
  ogImages : Nat             -- glob count of public og-image png/jpg files
  twitterImages : Nat        -- glob count of public twitter png/jpg files
  pwaIcons : Nat             -- glob count of public android-chrome png files
  manifest : Bool            -- public/manifest.json exists
  framework : Framework
  appSitemapTs : Bool        -- app/sitemap.ts exists
  appSitemapJs : Bool        -- app/sitemap.js exists
  publicSitemapXml : Bool    -- public/sitemap.xml exists
  robots : Bool              -- public/robots.txt exists
  layoutTsx : Option String  -- app/layout.tsx content if it exists
  nextBuild : Bool           -- .next exists
  distBuild : Bool           -- dist exists
  buildBuild : Bool          -- build exists
  webpImages : Nat           -- glob count of public webp files
  nextConfig : Option String -- next.config.js content if it exists
  gitignore : Option String  -- .gitignore content if it exists
  appNotFoundTsx : Bool      -- app/not-found.tsx exists
  appNotFoundJsx : Bool      -- app/not-found.jsx exists
  pages404Tsx : Bool         -- pages/404.tsx exists
  pages404Jsx : Bool         -- pages/404.jsx exists
  readme : Bool              -- README.md exists
  changelog : Bool           -- CHANGELOG.md exists
deriving DecidableEq, Repr

/-- `checkAssets` (reporter.ts:575–649). -/
def checkAssets (env : Env) : ChecklistSection :=
  let items : List ChecklistItem :=
    [ { id := "favicon", name := "Favicon generated",
        status := if env.favicon then CheckStatus.pass else CheckStatus.fail,
        required := true,
        message := if env.favicon then "favicon.ico found" else "No favicon.ico",
        fix := if env.favicon then none else some "Run /ship-assets",
        automated := true },
      { id := "og-images", name := "Open Graph images created",
        status := if env.ogImages > 0 then CheckStatus.pass else CheckStatus.fail,
        required := true,
        message := if env.ogImages > 0 then toString env.ogImages ++ " OG images found" else "No OG images",
        fix := if env.ogImages > 0 then none else some "Run /ship-assets",
        automated := true },
      { id := "twitter-cards", name := "Twitter cards configured",
        status := if env.twitterImages > 0 then CheckStatus.pass else CheckStatus.warning,
        required := false,
        message := if env.twitterImages > 0 then "Twitter images found" else "No Twitter card images",
        automated := true },
      { id := "pwa-icons", name := "PWA icons ready",
        status := if env.pwaIcons ≥ 2 then CheckStatus.pass else CheckStatus.warning,
        required := false,
        message := if env.pwaIcons ≥ 2 then toString env.pwaIcons ++ " PWA icons found" else "Missing PWA icons",
        automated := true },
      { id := "manifest", name := "Manifest.json exists",
        status := if env.manifest then CheckStatus.pass else CheckStatus.warning,
        required := false,
        message := if env.manifest then "manifest.json found" else "No manifest.json",
        automated := true } ]
  { name := "Assets & Branding", items, score := calculateSectionScore items, required := true }

/-- `checkSEO` (reporter.ts:654–737). -/
def checkSEO (env : Env) : ChecklistSection :=
  let sitemapExists :=
    if env.framework = Framework.nextApp then env.appSitemapTs || env.appSitemapJs
    else env.publicSitemapXml
  let hasMetaTags :=
    if env.framework = Framework.nextApp then
      match env.layoutTsx with
      | some content => jsIncludes content "metadata" && jsIncludes content "description"
      | none => false
    else false
  let items : List ChecklistItem :=
    [ { id := "sitemap", name := "Sitemap generated",
        status := if sitemapExists then CheckStatus.pass else CheckStatus.fail,
        required := true,
        message := if sitemapExists then "Sitemap found" else "No sitemap",
        fix := if sitemapExists then none else some "Run /ship-seo",
        automated := true },
      { id := "robots", name := "Robots.txt created",
        status := if env.robots then CheckStatus.pass else CheckStatus.fail,
        required := true,
        message := if env.robots then "robots.txt found" else "No robots.txt",
        fix := if env.robots then none else some "Run /ship-seo",
        automated := true },
      { id := "meta-tags", name := "Meta tags complete",
        status := if hasMetaTags then CheckStatus.pass else CheckStatus.warning,
        required := true,
        message := if hasMetaTags then "Meta tags configured" else "Meta tags may be incomplete",
        fix := if hasMetaTags then none else some "Run /ship-seo",
        automated := true },
      { id := "structured-data", name := "Structured data added",
        status := CheckStatus.skip, required := false,
        message := "Manual verification needed", automated := false },
      { id := "search-console", name := "Google Search Console setup",
        status := CheckStatus.skip, required := false,
        message := "Manual setup required", automated := false } ]
  { name := "SEO Optimization", items, score := calculateSectionScore items, required := true }

/-- `checkPerformance` (reporter.ts:742–825). The `config-optimized` item is
only pushed for Next.js frameworks. -/
def checkPerformance (env : Env) : ChecklistSection :=
  let buildExists := env.nextBuild || env.distBuild || env.buildBuild
  let configOptimized :=
    match env.nextConfig with
    | some content => jsIncludes content "swcMinify" && jsIncludes content "compress"
    | none => false
  let items : List ChecklistItem :=
    [ { id := "build-output", name := "Production build exists",
        status := if buildExists then CheckStatus.pass else CheckStatus.warning,
        required := true,
        message := if buildExists then "Build output found" else "No build output",
        fix := if buildExists then none else some "Run: npm run build",
        automated := false },
      { id := "optimized-images", name := "Images optimized",
        status := if env.webpImages > 0 then CheckStatus.pass else CheckStatus.warning,
        required := false,
        message := if env.webpImages > 0 then toString env.webpImages ++ " WebP images found" else "No optimized images",
        fix := if env.webpImages = 0 then some "Run /ship-perf" else none,
        automated := true } ]
    ++ (if env.framework = Framework.nextApp ∨ env.framework = Framework.nextPages then
        [ { id := "config-optimized", name := "Framework config optimized",
            status := if configOptimized then CheckStatus.pass else CheckStatus.warning,
            required := false,
            message := if configOptimized then "Config optimized" else "Config not optimized",
            fix := if configOptimized then none else some "Run /ship-perf",
            automated := true } ]
        else [])
    ++ [ { id := "lighthouse-score", name := "Lighthouse score > 90",
           status := CheckStatus.skip, required := false,
           message := "Run /ship-perf to check", automated := true },
         { id := "core-web-vitals", name := "Core Web Vitals good",
           status := CheckStatus.skip, required := false,
           message := "Run /ship-perf to check", automated := true } ]
  { name := "Performance", items, score := calculateSectionScore items, required := true }

/-- `checkSecurity` (reporter.ts:830–910). -/
def checkSecurity (env : Env) : ChecklistSection :=
  let envIgnored :=
    match env.gitignore with
    | some content => jsIncludes content ".env"
    | none => false
  let hasSecurityHeaders :=
    if env.framework = Framework.nextApp ∨ env.framework = Framework.nextPages then
      match env.nextConfig with
      | some content => jsIncludes content "headers()"
      | none => false
    else false
  let items : List ChecklistItem :=
    [ { id := "env-gitignore", name := "Environment variables not exposed",
        status := if envIgnored then CheckStatus.pass else CheckStatus.warning,
        required := true,
        message := if envIgnored then ".env is gitignored" else ".env may not be gitignored",
        automated := false },
      { id := "security-headers", name := "Security headers set",
        status := if hasSecurityHeaders then CheckStatus.pass else CheckStatus.warning,
        required := false,
        message := if hasSecurityHeaders then "Headers configured" else "No security headers",
        automated := true },
      { id := "dependencies", name := "Dependencies up to date",
        status := CheckStatus.skip, required := false,
        message := "Run: npm audit", automated := false },
      { id := "no-secrets", name := "No API keys in client code",
        status := CheckStatus.skip, required := true,
        message := "Manual verification needed", automated := false },
      { id := "https", name := "HTTPS enabled",
        status := CheckStatus.skip, required := true,
        message := "Verify after deployment", automated := false } ]
  { name := "Security", items, score := calculateSectionScore items, required := true }

/-- `checkFunctionality` (reporter.ts:915–987). -/
def checkFunctionality (env : Env) : ChecklistSection :=
  let has404 :=
    if env.framework = Framework.nextApp then env.appNotFoundTsx || env.appNotFoundJsx
    else if env.framework = Framework.nextPages then env.pages404Tsx || env.pages404Jsx
    else false
  let items : List ChecklistItem :=
    [ { id := "404-page", name := "404 page exists",
        status := if has404 then CheckStatus.pass else CheckStatus.warning,
        required := false,
        message := if has404 then "404 page found" else "No custom 404 page",
        automated := false },
      { id := "error-handling", name := "Error handling in place",
        status := CheckStatus.skip, required := false,
        message := "Manual verification needed", automated := false },
      { id := "forms", name := "Forms working correctly",
        status := CheckStatus.skip, required := false,
        message := "Manual testing required", automated := false },
      { id := "links", name := "Links not broken",
        status := CheckStatus.skip, required := false,
        message := "Manual verification needed", automated := false },
      { id := "mobile-responsive", name := "Mobile responsive",
        status := CheckStatus.skip, required := false,
        message := "Manual testing required", automated := false } ]
  { name := "Functionality", items, score := calculateSectionScore items, required := false }

/-- `checkAnalytics` (reporter.ts:992–1033): three constant `skip` items. -/
def checkAnalytics (_env : Env) : ChecklistSection :=
  let items : List ChecklistItem :=
    [ { id := "analytics", name := "Analytics installed",
        status := CheckStatus.skip, required := false,
        message := "Manual setup (Google Analytics, Vercel Analytics, etc.)", automated := false },
      { id := "error-tracking", name := "Error tracking setup",
        status := CheckStatus.skip, required := false,
        message := "Manual setup (Sentry, LogRocket, etc.)", automated := false },
      { id := "performance-monitoring", name := "Performance monitoring",
        status := CheckStatus.skip, required := false,
        message := "Manual setup", automated := false } ]
  { name := "Analytics & Monitoring", items, score := calculateSectionScore items, required := false }

/-- `checkDocumentation` (reporter.ts:1038–1081). -/
def checkDocumentation (env : Env) : ChecklistSection :=
  let items : List ChecklistItem :=
    [ { id := "readme", name := "README.md complete",
        status := if env.readme then CheckStatus.pass else CheckStatus.warning,
        required := false,
        message := if env.readme then "README.md found" else "No README.md",
        automated := false },
      { id := "changelog", name := "Changelog started",
        status := if env.changelog then CheckStatus.pass else CheckStatus.skip,
        required := false,
        message := if env.changelog then "CHANGELOG.md found" else "No CHANGELOG.md",
        automated := false },
      { id := "api-docs", name := "API docs (if applicable)",
        status := CheckStatus.skip, required := false,
        message := "Only if you have an API", automated := false } ]
  { name := "Documentation", items, score := calculateSectionScore items, required := false }

/-- `checkLegal` (reporter.ts:1086–1127): three constant `skip` items. -/
def checkLegal (_env : Env) : ChecklistSection :=
  let items : List ChecklistItem :=
    [ { id := "privacy-policy", name := "Privacy policy (if needed)",
        status := CheckStatus.skip, required := false,
        message := "Required if collecting user data", automated := false },
      { id := "terms", name := "Terms of service (if needed)",
        status := CheckStatus.skip, required := false,
        message := "Required for commercial apps", automated := false },
      { id := "cookies", name := "Cookie consent (if needed)",
        status := CheckStatus.skip, required := false,
        message := "Required for GDPR compliance", automated := false } ]
  { name := "Legal & Compliance", items, score := calculateSectionScore items, required := false }

/-- The aggregation tail of `runLaunchChecklist` (reporter.ts:531–560): the
nested `forEach` pushing an item into `criticalIssues` when
the status is fail and the item is required, else into `warnings` when
the status is warning. -/
def collectIssues (sections : List ChecklistSection) :
    List ChecklistItem × List ChecklistItem :=
  sections.foldl
    (fun acc s =>
      s.items.foldl
        (fun acc2 i =>
          if i.status = CheckStatus.fail ∧ i.required = true then
            (acc2.1 ++ [i], acc2.2)
          else if i.status = CheckStatus.warning then
            (acc2.1, acc2.2 ++ [i])
          else acc2)
        acc)
    ([], [])

/-- The aggregation of `runLaunchChecklist` (reporter.ts:531–560) factored
over the already-produced section list: total score reduce, overall score
`Math.round(total / sections.length)`, issue collection, readiness verdict. -/
def buildChecklist (sections : List ChecklistSection) (timestamp : Int) :
    LaunchChecklist :=
  let totalScore := sections.foldl (fun sum s => sum + s.score) 0
  let overallScore := mathRound totalScore sections.length
  let collected := collectIssues sections
  let criticalIssues := collected.1
  let warnings := collected.2
  let readyToLaunch := criticalIssues.length = 0 ∧ overallScore ≥ 70
  { sections, overallScore,
    readyToLaunch := decide readyToLaunch,
    criticalIssues, warnings, timestamp }

/-- `runLaunchChecklist` (reporter.ts:501–568): the eight providers in fixed
order, then the aggregation. The providers are pure functions of the project
environment here; the variant that models provider exceptions is
`runLaunchChecklistWith` below. -/
def runLaunchChecklist (env : Env) (timestamp : Int) : LaunchChecklist :=
  buildChecklist
    [ checkAssets env, checkSEO env, checkPerformance env, checkSecurity env,
      checkFunctionality env, checkAnalytics env, checkDocumentation env,
      checkLegal env ]
    timestamp

/-- Sequential `await` of provider promises as in `runLaunchChecklist`:
`sections.push(await provider(...))` one after the other, with no
`try`/`catch` anywhere around them, so the first rejection propagates. -/
def awaitSections :
    List (Except String ChecklistSection) → Except String (List ChecklistSection)
  | [] => Except.ok []
  | p :: ps =>
    match p with
    | Except.error e => Except.error e
    | Except.ok s =>
      match awaitSections ps with
      | Except.error e => Except.error e
      | Except.ok rest => Except.ok (s :: rest)

/-- `runLaunchChecklist` over arbitrary Check Provider behaviours (each
provider either returns a section or throws): the body awaits each provider
in order and only reaches the aggregation when all eight resolved. -/
def runLaunchChecklistWith (provs : List (Except String ChecklistSection))
    (timestamp : Int) : Except String LaunchChecklist :=
  match awaitSections provs with
  | Except.error e => Except.error e
  | Except.ok sections => Except.ok (buildChecklist sections timestamp)

/-- Workflow step status (the status union of `WorkflowStep` in orchestrator.ts). -/
inductive StepStatus
  | pending
  | running
  | completed
  | failed
  | skipped
deriving DecidableEq, Repr

/-- The opaque `result` payload stored by each orchestrator step, as a tagged
union of the shapes the five step functions actually store. -/
inductive StepResult
  | assets (assetsGenerated : Nat) (totalSavings : Nat)
  | seo (seoScore : Nat) (itemsFound : Nat) (itemsTotal : Nat)
  | perf (performanceScore : Nat) (imagesOptimized : Nat) (bytesSaved : Nat)
  | checklist (cl : LaunchChecklist)
  | deploy (url : String) (wasSkipped : Bool)
deriving DecidableEq, Repr

/-- One unit of orchestrated work (`WorkflowStep`); wall-clock fields
(`startTime`, `endTime`, `duration`) are elided. -/
structure WorkflowStep where
  id : String
  name : String
  description : String
  status : StepStatus
  error : Option String := none
  result : Option StepResult := none
deriving DecidableEq, Repr

/-- Caller-supplied workflow options (`WorkflowConfig`): every field is
optional; absent fields fall back to `DEFAULT_CONFIG` via the object
spread `{...DEFAULT_CONFIG, ...config}`. -/
structure WorkflowConfig where
  skipAssets : Option Bool := none
  skipSEO : Option Bool := none
  skipPerf : Option Bool := none
  skipDeploy : Option Bool := none
  autoFix : Option Bool := none
  targetScore : Option Nat := none
  production : Option Bool := none
deriving DecidableEq, Repr

/-- The merged configuration after `{...DEFAULT_CONFIG, ...config}`, with
`DEFAULT_CONFIG = { skipAssets: false, skipSEO: false, skipPerf: false,
skipDeploy: true, autoFix: true, targetScore: 90, production: false }`. -/
structure ResolvedConfig where
  skipAssets : Bool
  skipSEO : Bool
  skipPerf : Bool
  skipDeploy : Bool
  autoFix : Bool
  targetScore : Nat
  production : Bool
deriving DecidableEq, Repr

/-- `const finalConfig = { ...DEFAULT_CONFIG, ...config }`. -/
def mergeConfig (config : WorkflowConfig) : ResolvedConfig :=
  { skipAssets := config.skipAssets.getD false,
    skipSEO := config.skipSEO.getD false,
    skipPerf := config.skipPerf.getD false,
    skipDeploy := config.skipDeploy.getD true,
    autoFix := config.autoFix.getD true,
    targetScore := config.targetScore.getD 90,
    production := config.production.getD false }

/-- `summary` object of a `WorkflowResult`. -/
structure WorkflowSummary where
  assetsGenerated : Nat
  seoScore : Nat
  performanceScore : Nat
  launchScore : Nat
  readyToLaunch : Bool
deriving DecidableEq, Repr

/-- `WorkflowResult` (orchestrator.ts). -/
structure WorkflowResult where
  steps : List WorkflowStep
  overallSuccess : Bool
  totalDuration : Int
  launchChecklist : Option LaunchChecklist := none
  deploymentUrl : Option String := none
  summary : WorkflowSummary
deriving DecidableEq, Repr

deriving instance DecidableEq for Except

/-- Effectful calls awaited inside the `try` block of `runAssetGeneration`:
`analyzeImages` yields `totalImages`, `optimizeImages` yields the per-image
savings list; either promise may reject. -/
structure AssetsEff where
  analyze : Except String Nat
  optimize : Except String (List Nat)
deriving DecidableEq, Repr

/-- Effectful calls inside the `try` block of `runSEOOptimization`:
`detectFramework` may reject; the `checkFileExists` probes never throw and
are plain booleans. -/
structure SeoEff where
  detect : Except String Framework
  appSitemap : Bool      -- app/sitemap.ts exists
  publicSitemap : Bool   -- public/sitemap.xml exists
  robotsTxt : Bool       -- public/robots.txt exists
  manifestJson : Bool    -- public/manifest.json exists
  layout : Bool          -- app/layout.tsx exists
deriving DecidableEq, Repr

/-- Effectful call inside the `try` block of `runPerformanceOptimization`:
`optimizeImages` yields the per-image savings list or rejects. -/
structure PerfEff where
  optimize : Except String (List Nat)
deriving DecidableEq, Repr

/-- The external behaviour of the five step bodies for one run. -/
structure OrchestratorEnv where
  assets : AssetsEff
  seo : SeoEff
  perf : PerfEff
  checklist : Except String LaunchChecklist
deriving DecidableEq, Repr

/-- `runAssetGeneration` (part_011, orchestrator step 1): the `try` block
analyzes, then either optimizes (`completed`) or skips; a thrown error is
caught and recorded as `failed` with the error text. -/
def runAssetGeneration (eff : AssetsEff) : WorkflowStep :=
  let base : WorkflowStep :=
    { id := "assets", name := "Asset Generation",
      description := "Generate favicons, OG images, and PWA icons",
      status := StepStatus.running }
  match eff.analyze with
  | Except.error e => { base with status := StepStatus.failed, error := some e }
  | Except.ok totalImages =>
    if totalImages > 0 then
      match eff.optimize with
      | Except.error e => { base with status := StepStatus.failed, error := some e }
      | Except.ok savings =>
        { base with status := StepStatus.completed,
                    result := some (StepResult.assets savings.length savings.sum) }
    else
      { base with status := StepStatus.skipped,
                  result := some (StepResult.assets 0 0) }

/-- `runSEOOptimization` (part_011, orchestrator step 2). -/
def runSEOOptimization (eff : SeoEff) : WorkflowStep :=
  let base : WorkflowStep :=
    { id := "seo", name := "SEO Optimization",
      description := "Optimize meta tags, sitemap, and robots.txt",
      status := StepStatus.running }
  match eff.detect with
  | Except.error e => { base with status := StepStatus.failed, error := some e }
  | Except.ok fw =>
    let sitemapExists :=
      if fw = Framework.nextApp then eff.appSitemap else eff.publicSitemap
    let n1 : Nat := if sitemapExists then 1 else 0
    let n2 : Nat := if eff.robotsTxt then 1 else 0
    let n3 : Nat := if eff.manifestJson then 1 else 0
    let n4 : Nat := if fw = Framework.nextApp ∧ eff.layout = true then 1 else 0
    let itemsFound := n1 + n2 + n3 + n4
    let seoScore := 25 * itemsFound
    { base with status := StepStatus.completed,
                result := some (StepResult.seo seoScore itemsFound 4) }

/-- `runPerformanceOptimization` (part_011, orchestrator step 3): base score
70, +10 when at least one image was optimized, +10 when more than 1 MB was
saved. -/
def runPerformanceOptimization (eff : PerfEff) : WorkflowStep :=
  let base : WorkflowStep :=
    { id := "performance", name := "Performance Optimization",
      description := "Optimize images, bundle, and configuration",
      status := StepStatus.running }
  match eff.optimize with
  | Except.error e => { base with status := StepStatus.failed, error := some e }
  | Except.ok savings =>
    let bytesSaved := savings.sum
    let performanceScore :=
      70 + (if savings.length > 0 then 10 else 0)
         + (if bytesSaved > 1000000 then 10 else 0)
    { base with status := StepStatus.completed,
                result := some (StepResult.perf performanceScore savings.length bytesSaved) }

/-- `runLaunchChecklistValidation` (part_011, orchestrator step 4): stores
the checklist as the step result on success, records `failed` on a thrown
error. -/
def runLaunchChecklistValidation (eff : Except String LaunchChecklist) :
    WorkflowStep :=
  let base : WorkflowStep :=
    { id := "launch-checklist", name := "Launch Checklist",
      description := "Validate project readiness for launch",
      status := StepStatus.running }
  match eff with
  | Except.error e => { base with status := StepStatus.failed, error := some e }
  | Except.ok cl =>
    { base with status := StepStatus.completed,
                result := some (StepResult.checklist cl) }

/-- `runDeployment` (part_011, orchestrator step 5): the body performs no
fallible call and always ends the step `skipped` with a placeholder URL. -/
def runDeployment (production : Bool) : WorkflowStep :=
  { id := "deployment", name := "Deployment",
    description := if production then "Deploy to production" else "Deploy to preview",
    status := StepStatus.skipped,
    result := some (StepResult.deploy "https://your-app.vercel.app" true) }

/-- `checklistStep.result as LaunchChecklist`: the cast yields the checklist
when the step stored one (i.e. it completed) and `undefined` otherwise. -/
def resultChecklist : Option StepResult → Option LaunchChecklist
  | some (StepResult.checklist cl) => some cl
  | _ => none

/-- `steps[i]?.result?.assetsGenerated || 0`. -/
def resultAssetsGenerated : Option WorkflowStep → Nat
  | some step =>
    match step.result with
    | some (StepResult.assets n _) => n
    | _ => 0
  | none => 0

/-- `steps[i]?.result?.seoScore || 0`. -/
def resultSeoScore : Option WorkflowStep → Nat
  | some step =>
    match step.result with
    | some (StepResult.seo sc _ _) => sc
    | _ => 0
  | none => 0

/-- `steps[i]?.result?.performanceScore || 0`. -/
def resultPerformanceScore : Option WorkflowStep → Nat
  | some step =>
    match step.result with
    | some (StepResult.perf sc _ _) => sc
    | _ => 0
  | none => 0

/-- `runCompleteWorkflow` (part_011:93–162): runs steps 1–3 unless skipped,
always runs the checklist step, runs the deployment step only when
`!finalConfig.skipDeploy && launchChecklist?.readyToLaunch`, then summarizes
with `overallSuccess = steps.every(s => completed || skipped)`.
`elapsed` is the measured wall-clock duration `Date.now() - startTime`. -/
def runCompleteWorkflow (env : OrchestratorEnv) (config : WorkflowConfig)
    (elapsed : Int) : WorkflowResult :=
  let finalConfig := mergeConfig config
  let steps0 : List WorkflowStep :=
    if finalConfig.skipAssets then [] else [runAssetGeneration env.assets]
  let steps1 := steps0 ++
    (if finalConfig.skipSEO then [] else [runSEOOptimization env.seo])
  let steps2 := steps1 ++
    (if finalConfig.skipPerf then [] else [runPerformanceOptimization env.perf])
  let checklistStep := runLaunchChecklistValidation env.checklist
  let steps3 := steps2 ++ [checklistStep]
  let launchChecklist := resultChecklist checklistStep.result
  let deployGate :=
    !finalConfig.skipDeploy &&
      (match launchChecklist with
       | some cl => cl.readyToLaunch
       | none => false)
  let deployStepList : List WorkflowStep :=
    if deployGate then [runDeployment finalConfig.production] else []
  let steps := steps3 ++ deployStepList
  let deploymentUrl : Option String :=
    match deployStepList with
    | [d] =>
      (match d.result with
       | some (StepResult.deploy url _) => some url
       | _ => none)
    | _ => none
  let overallSuccess := steps.all fun s =>
    s.status = StepStatus.completed ∨ s.status = StepStatus.skipped
  let summary : WorkflowSummary :=
    { assetsGenerated := resultAssetsGenerated (steps.get? 0),
      seoScore := resultSeoScore (steps.get? 1),
      performanceScore := resultPerformanceScore (steps.get? 2),
      launchScore :=
        match launchChecklist with
        | some cl => cl.overallScore
        | none => 0,
      readyToLaunch :=
        match launchChecklist with
        | some cl => cl.readyToLaunch
        | none => false }
  { steps, overallSuccess, totalDuration := elapsed, launchChecklist,
    deploymentUrl, summary }

/-- Workflow run status (the status union of `WorkflowState` in workflow.ts). -/
inductive WorkflowStatus
  | inProgress
  | completed
  | failed
  | cancelled
deriving DecidableEq, Repr

/-- Durable progress record for one run (`WorkflowState`); `startTime` and
`lastUpdate` are `Date` values modelled as milliseconds. -/
structure WorkflowState where
  id : String
  projectRoot : String
  startTime : Int
  lastUpdate : Int
  status : WorkflowStatus
  currentStep : Nat
  totalSteps : Nat
  steps : List WorkflowStep
  config : WorkflowConfig
deriving DecidableEq, Repr

/-- `generateWorkflowId` (part_011): `workflow-${Date.now()}-${random}`; the
clock value and the random suffix are inputs here. -/
def generateWorkflowId (now : Int) (rand : String) : String :=
  "workflow-" ++ toString now ++ "-" ++ rand

/-- `createWorkflowState` (part_011:697–713): a plain object literal with
status in-progress, `currentStep` 0 and no validation of any argument
— the body has no `throw` and no precondition check. -/
def createWorkflowState (projectRoot : String) (totalSteps : Nat)
    (config : WorkflowConfig) (now : Int) (rand : String) : WorkflowState :=
  { id := generateWorkflowId now rand,
    projectRoot,
    startTime := now,
    lastUpdate := now,
    status := WorkflowStatus.inProgress,
    currentStep := 0,
    totalSteps,
    steps := [],
    config }

/-- A terminal step status: `completed`, `failed` or `skipped`. -/
def isTerminalStatus (s : StepStatus) : Bool :=
  s = StepStatus.completed ∨ s = StepStatus.failed ∨ s = StepStatus.skipped

/-- `updateWorkflowState` (part_011:718–747): upsert by `id` (replace the
first step with a matching id, else push), refresh `lastUpdate`, recompute
`currentStep` as the terminal count only when the incoming step is terminal,
then set the overall status once `currentStep >= totalSteps`. -/
def updateWorkflowState (now : Int) (state : WorkflowState)
    (step : WorkflowStep) : WorkflowState :=
  let steps : List WorkflowStep :=
    match state.steps.findIdx? (fun s => s.id = step.id) with
    | some i => state.steps.set i step
    | none => state.steps ++ [step]
  let st1 : WorkflowState := { state with steps, lastUpdate := now }
  let st2 : WorkflowState :=
    if isTerminalStatus step.status then
      { st1 with currentStep := (st1.steps.filter (fun s => isTerminalStatus s.status)).length }
    else st1
  if st2.currentStep ≥ st2.totalSteps then
    { st2 with
      status :=
        if st2.steps.any (fun s => s.status = StepStatus.failed) then
          WorkflowStatus.failed
        else WorkflowStatus.completed }
  else st2

/-- `canResumeWorkflow` (part_011:759–765): in progress, not past the last
step, and updated less than 24 hours ago. -/
def canResumeWorkflow (now : Int) (state : WorkflowState) : Bool :=
  state.status = WorkflowStatus.inProgress &&
  state.currentStep < state.totalSteps &&
  now - state.lastUpdate < 24 * 60 * 60 * 1000

/-- Per-step summary stored in a history entry (`saveToHistory` maps each
step to `{ id, name, status, duration }`; the wall-clock `duration` is
elided). -/
structure StepSummary where
  id : String
  name : String
  status : StepStatus
deriving DecidableEq, Repr

/-- One entry of the bounded workflow history list. -/
structure HistoryEntry where
  timestamp : Int
  duration : Int
  success : Bool
  summary : WorkflowSummary
  steps : List StepSummary
deriving DecidableEq, Repr

/-- The entry `saveToHistory` unshifts for a finished run. -/
def mkHistoryEntry (now : Int) (result : WorkflowResult) : HistoryEntry :=
  { timestamp := now,
    duration := result.totalDuration,
    success := result.overallSuccess,
    summary := result.summary,
    steps := result.steps.map fun s => { id := s.id, name := s.name, status := s.status } }

/-- The history-file read at the start of `saveToHistory` (part_011:637–674):
`none` models an absent file, `some (Except.error _)` a file whose
`JSON.parse` throws — both branches leave `history = []`. -/
def loadHistoryFile : Option (Except String (List HistoryEntry)) → List HistoryEntry
  | none => []
  | some (Except.error _) => []
  | some (Except.ok h) => h

/-- `saveToHistory` (part_011:637–674) as the list it writes back: load the
existing list (or empty), `unshift` the new entry, `slice(0, 10)`. -/
def saveToHistory (file : Option (Except String (List HistoryEntry)))
    (now : Int) (result : WorkflowResult) : List HistoryEntry :=
  (mkHistoryEntry now result :: loadHistoryFile file).take 10

/-! ## Helper lemmas -/

/-- The per-item point sum of the spec equals the weighted filter counts of the source. -/
theorem sum_specItemPoints (items : List ChecklistItem) :
    (items.map (fun i => specItemPoints i.status)).sum =
      (items.filter (fun i => decide (i.status = CheckStatus.pass))).length * 100 +
      (items.filter (fun i => decide (i.status = CheckStatus.warning))).length * 50 +
      (items.filter (fun i => decide (i.status = CheckStatus.skip))).length * 75 := by
  induction items with
  | nil => simp
  | cons i t ih =>
    simp only [List.map_cons, List.sum_cons, List.filter_cons, ih]
    cases h : i.status <;> simp [h, specItemPoints] <;> ring

/-- The worked example from the spec: one item of each status, in the order
pass, warning, skip, fail. -/
def fourStatusItems : List ChecklistItem :=
  [ { id := "p", name := "p", status := CheckStatus.pass, required := true,
      message := "", automated := true },
    { id := "w", name := "w", status := CheckStatus.warning, required := true,
      message := "", automated := true },
    { id := "s", name := "s", status := CheckStatus.skip, required := true,
      message := "", automated := true },
    { id := "f", name := "f", status := CheckStatus.fail, required := true,
      message := "", automated := true } ]

/-- C1: for every list of checklist items, `calculateSectionScore` returns the
rounded mean of per-item point values (pass=100, warning=50, skip=75, fail=0);
the empty item list yields exactly 100, and the list
[pass, warning, skip, fail] yields exactly 56. -/
theorem calculateSectionScore_spec (items : List ChecklistItem)
    (h : items ≠ []) :
    calculateSectionScore items =
      mathRound ((items.map (fun i => specItemPoints i.status)).sum) items.length
  ∧ calculateSectionScore [] = 100
  ∧ calculateSectionScore fourStatusItems = 56 := by
  refine ⟨?_, rfl, by decide⟩
  unfold calculateSectionScore
  rw [if_neg (by simpa using h), sum_specItemPoints]

/-- Concrete instance of `calculateSectionScore_spec` at the worked example
from the spec. -/
theorem calculateSectionScore_spec_witness :
    fourStatusItems ≠ [] ∧
    calculateSectionScore fourStatusItems =
      mathRound ((fourStatusItems.map (fun i => specItemPoints i.status)).sum)
        fourStatusItems.length :=
  ⟨by decide, (calculateSectionScore_spec fourStatusItems (by decide)).1⟩

/-- Unfolding lemma for the inner `forEach` of the issue collection: folding
the items of one section onto an accumulator pair appends exactly the
critical and warning items of that section. -/
theorem collect_items_foldl (items : List ChecklistItem)
    (a b : List ChecklistItem) :
    items.foldl
      (fun acc2 i =>
        if i.status = CheckStatus.fail ∧ i.required = true then
          (acc2.1 ++ [i], acc2.2)
        else if i.status = CheckStatus.warning then
          (acc2.1, acc2.2 ++ [i])
        else acc2)
      (a, b) =
    (a ++ items.filter (fun i => decide (i.status = CheckStatus.fail ∧ i.required = true)),
     b ++ items.filter (fun i => decide (i.status = CheckStatus.warning))) := by
  induction items generalizing a b with
  | nil => simp
  | cons i t ih =>
    simp only [List.foldl_cons, List.filter_cons]
    by_cases h1 : i.status = CheckStatus.fail ∧ i.required = true
    · have h2 : ¬ i.status = CheckStatus.warning := by
        rw [h1.1]; intro hcontr; exact CheckStatus.noConfusion hcontr
      simp [h1, h2, ih]
    · by_cases h2 : i.status = CheckStatus.warning
      · simp [h1, h2, ih]
      · simp [h1, h2, ih]

/-- The nested `forEach` of `runLaunchChecklist` collects exactly the
critical and warning items of all sections, flattened in section order then
item order. -/
theorem collectIssues_eq (sections : List ChecklistSection) :
    collectIssues sections =
      ((sections.map (fun s => s.items)).flatten.filter
         (fun i => decide (i.status = CheckStatus.fail ∧ i.required = true)),
       (sections.map (fun s => s.items)).flatten.filter
         (fun i => decide (i.status = CheckStatus.warning))) := by
  unfold collectIssues
  suffices h : ∀ (secs : List ChecklistSection) (a b : List ChecklistItem),
      secs.foldl
        (fun acc s =>
          s.items.foldl
            (fun acc2 i =>
              if i.status = CheckStatus.fail ∧ i.required = true then
                (acc2.1 ++ [i], acc2.2)
              else if i.status = CheckStatus.warning then
                (acc2.1, acc2.2 ++ [i])
              else acc2)
            acc)
        (a, b) =
      (a ++ (secs.map (fun s => s.items)).flatten.filter
         (fun i => decide (i.status = CheckStatus.fail ∧ i.required = true)),
       b ++ (secs.map (fun s => s.items)).flatten.filter
         (fun i => decide (i.status = CheckStatus.warning))) by
    simpa using h sections [] []
  intro secs
  induction secs with
  | nil => intro a b; simp
  | cons s t ih =>
    intro a b
    simp only [List.foldl_cons, collect_items_foldl, ih, List.map_cons,
      List.flatten_cons, List.filter_append, List.append_assoc]

/-- The reduce over `s.score` in `runLaunchChecklist` is the sum of the
section scores. -/
theorem foldl_score_sum (sections : List ChecklistSection) (n : Nat) :
    sections.foldl (fun sum s => sum + s.score) n =
      n + (sections.map (fun s => s.score)).sum := by
  induction sections generalizing n with
  | nil => simp
  | cons s t ih => simp [List.foldl_cons, ih]; ring

/-- Shared characterization of the aggregation tail of `runLaunchChecklist`. -/
theorem buildChecklist_spec (sections : List ChecklistSection) (ts : Int) :
    (buildChecklist sections ts).sections = sections
  ∧ (buildChecklist sections ts).overallScore =
      mathRound ((sections.map (fun s => s.score)).sum) sections.length
  ∧ (buildChecklist sections ts).criticalIssues =
      (sections.map (fun s => s.items)).flatten.filter
        (fun i => decide (i.status = CheckStatus.fail ∧ i.required = true))
  ∧ (buildChecklist sections ts).warnings =
      (sections.map (fun s => s.items)).flatten.filter
        (fun i => decide (i.status = CheckStatus.warning))
  ∧ ((buildChecklist sections ts).readyToLaunch = true ↔
      (buildChecklist sections ts).criticalIssues = [] ∧
      70 ≤ (buildChecklist sections ts).overallScore) := by
  unfold buildChecklist
  refine ⟨rfl, ?_, ?_, ?_, ?_⟩
  · simp [foldl_score_sum]
  · simp [collectIssues_eq]
  · simp [collectIssues_eq]
  · simp [decide_eq_true_eq, List.length_eq_zero]

/-- A concrete healthy project environment: every automatable check passes,
so the resulting checklist has no critical issues and a score above 70. -/
def envGood : Env :=
  { favicon := true, ogImages := 1, twitterImages := 1, pwaIcons := 2,
    manifest := true, framework := Framework.nextApp,
    appSitemapTs := true, appSitemapJs := false, publicSitemapXml := false,
    robots := true,
    layoutTsx := some "export const metadata with description",
    nextBuild := true, distBuild := false, buildBuild := false,
    webpImages := 3, nextConfig := some "swcMinify: true, compress: true",
    gitignore := some ".env", appNotFoundTsx := true, appNotFoundJsx := false,
    pages404Tsx := false, pages404Jsx := false, readme := true,
    changelog := true }

/-- `envGood` with the favicon missing: the `favicon` item is a required
failure, so the checklist has a critical issue. -/
def envBad : Env :=
  { envGood with favicon := false }

/-- C3: `overallScore` is the rounded unweighted mean of the section scores,
`criticalIssues` is exactly the required failed items flattened in section
order then item order, and `warnings` is exactly the warning-status items in
the same ordering. -/
theorem runLaunchChecklist_aggregation (env : Env) (ts : Int) :
    (runLaunchChecklist env ts).overallScore =
      mathRound (((runLaunchChecklist env ts).sections.map (fun s => s.score)).sum)
        (runLaunchChecklist env ts).sections.length
  ∧ (runLaunchChecklist env ts).criticalIssues =
      ((runLaunchChecklist env ts).sections.map (fun s => s.items)).flatten.filter
        (fun i => decide (i.status = CheckStatus.fail ∧ i.required = true))
  ∧ (runLaunchChecklist env ts).warnings =
      ((runLaunchChecklist env ts).sections.map (fun s => s.items)).flatten.filter
        (fun i => decide (i.status = CheckStatus.warning)) := by
  unfold runLaunchChecklist
  obtain ⟨hsec, hscore, hcrit, hwarn, -⟩ :=
    buildChecklist_spec
      [ checkAssets env, checkSEO env, checkPerformance env, checkSecurity env,
        checkFunctionality env, checkAnalytics env, checkDocumentation env,
        checkLegal env ] ts
  exact ⟨by rw [hscore, hsec], by rw [hcrit, hsec], by rw [hwarn, hsec]⟩

/-- C2: `readyToLaunch` is true iff there are no critical issues and the
overall score is at least 70; any required failed item in any section forces
it to false, and a score below 70 forces it to false. -/
theorem runLaunchChecklist_ready_iff (env : Env) (ts : Int) :
    ((runLaunchChecklist env ts).readyToLaunch = true ↔
      (runLaunchChecklist env ts).criticalIssues = [] ∧
      70 ≤ (runLaunchChecklist env ts).overallScore)
  ∧ (∀ s ∈ (runLaunchChecklist env ts).sections, ∀ i ∈ s.items,
      i.status = CheckStatus.fail → i.required = true →
      (runLaunchChecklist env ts).readyToLaunch = false)
  ∧ ((runLaunchChecklist env ts).overallScore < 70 →
      (runLaunchChecklist env ts).readyToLaunch = false) := by
  obtain ⟨-, -, hcrit, -, hready⟩ :=
    buildChecklist_spec
      [ checkAssets env, checkSEO env, checkPerformance env, checkSecurity env,
        checkFunctionality env, checkAnalytics env, checkDocumentation env,
        checkLegal env ] ts
  have hready' :
      (runLaunchChecklist env ts).readyToLaunch = true ↔
        (runLaunchChecklist env ts).criticalIssues = [] ∧
        70 ≤ (runLaunchChecklist env ts).overallScore := hready
  have hcrit' : (runLaunchChecklist env ts).criticalIssues =
      ((runLaunchChecklist env ts).sections.map (fun s => s.items)).flatten.filter
        (fun i => decide (i.status = CheckStatus.fail ∧ i.required = true)) := by
    obtain ⟨hsec, -, hcritEq, -, -⟩ :=
      buildChecklist_spec
        [ checkAssets env, checkSEO env, checkPerformance env, checkSecurity env,
          checkFunctionality env, checkAnalytics env, checkDocumentation env,
          checkLegal env ] ts
    unfold runLaunchChecklist
    rw [hcritEq, hsec]
  refine ⟨hready', ?_, ?_⟩
  · intro s hs i hi hfail hreq
    have hmem : i ∈ (runLaunchChecklist env ts).criticalIssues := by
      rw [hcrit']
      refine List.mem_filter.mpr ⟨?_, by simp [hfail, hreq]⟩
      exact List.mem_flatten.mpr ⟨s.items, List.mem_map_of_mem _ hs, hi⟩
    cases hb : (runLaunchChecklist env ts).readyToLaunch
    · rfl
    · obtain ⟨hnil, -⟩ := hready'.mp hb
      rw [hnil] at hmem
      exact absurd hmem (List.not_mem_nil i)
  · intro hlt
    cases hb : (runLaunchChecklist env ts).readyToLaunch
    · rfl
    · obtain ⟨-, hge⟩ := hready'.mp hb
      omega

/-- Concrete instance of `runLaunchChecklist_ready_iff`: with the favicon
missing, the required `favicon` item fails and the verdict is not ready. -/
theorem runLaunchChecklist_ready_iff_witness :
    (runLaunchChecklist envBad 0).readyToLaunch = false :=
  (runLaunchChecklist_ready_iff envBad 0).2.1
    (checkAssets envBad) (by decide)
    { id := "favicon", name := "Favicon generated", status := CheckStatus.fail,
      required := true, message := "No favicon.ico",
      fix := some "Run /ship-assets", automated := true }
    (by decide) rfl rfl

/-- C10 as stated is false: the second section produced by
`runLaunchChecklist` is named "SEO Optimization", not "SEO". -/
theorem runLaunchChecklist_sections_counterexample :
    (runLaunchChecklist envGood 0).sections.map (fun s => s.name) ≠
      ["Assets & Branding", "SEO", "Performance", "Security", "Functionality",
       "Analytics & Monitoring", "Documentation", "Legal & Compliance"] := by
  decide

/-- C10 (amended): for every environment, the checklist contains exactly 8
sections in the fixed order Assets & Branding, SEO Optimization, Performance,
Security, Functionality, Analytics & Monitoring, Documentation,
Legal & Compliance; in particular the section list is never empty, so the
division by the section count defining `overallScore` is never by zero. -/
theorem runLaunchChecklist_sections_spec (env : Env) (ts : Int) :
    (runLaunchChecklist env ts).sections.map (fun s => s.name) =
      ["Assets & Branding", "SEO Optimization", "Performance", "Security",
       "Functionality", "Analytics & Monitoring", "Documentation",
       "Legal & Compliance"]
  ∧ (runLaunchChecklist env ts).sections.length = 8
  ∧ (runLaunchChecklist env ts).sections ≠ [] := by
  refine ⟨rfl, rfl, ?_⟩
  intro hcontr
  exact List.noConfusion hcontr

/-- `awaitSections` succeeds exactly when every provider resolved. -/
theorem awaitSections_ok_iff (provs : List (Except String ChecklistSection)) :
    (∃ ss, awaitSections provs = Except.ok ss) ↔
      ∀ p ∈ provs, ∃ s, p = Except.ok s := by
  induction provs with
  | nil => simp [awaitSections]
  | cons p ps ih =>
    cases p with
    | error e =>
      simp only [awaitSections]
      constructor
      · rintro ⟨ss, hss⟩; exact absurd hss (by simp)
      · intro h
        obtain ⟨s, hs⟩ := h (Except.error e) (List.mem_cons_self _ _)
        exact absurd hs (by simp)
    | ok s =>
      simp only [awaitSections]
      constructor
      · rintro ⟨ss, hss⟩
        intro q hq
        rcases List.mem_cons.mp hq with hq | hq
        · exact ⟨s, by rw [hq]⟩
        · cases hrest : awaitSections ps with
          | error e => rw [hrest] at hss; exact absurd hss (by simp)
          | ok rest => exact (ih.mp ⟨rest, hrest⟩) q hq
      · intro h
        obtain ⟨rest, hrest⟩ := ih.mpr (fun q hq => h q (List.mem_cons_of_mem _ hq))
        exact ⟨s :: rest, by rw [hrest]⟩

/-- The error of the first rejected provider propagates out of `awaitSections`. -/
theorem awaitSections_error (pre : List (Except String ChecklistSection))
    (e : String) (post : List (Except String ChecklistSection))
    (h : ∀ p ∈ pre, ∃ s, p = Except.ok s) :
    awaitSections (pre ++ Except.error e :: post) = Except.error e := by
  induction pre with
  | nil => simp [awaitSections]
  | cons p ps ih =>
    obtain ⟨s, hs⟩ := h p (List.mem_cons_self _ _)
    rw [hs]
    have hih := ih (fun q hq => h q (List.mem_cons_of_mem _ hq))
    simp only [List.cons_append, awaitSections, List.append_eq]
    rw [hih]

/-- C4 as stated is false: `runLaunchChecklist` awaits its eight providers
with no `try`/`catch`, so when the first provider throws, the evaluator
rejects with that exception and returns no `LaunchChecklist` at all (it does
not translate the exception into a `fail` item). -/
theorem runLaunchChecklistWith_counterexample :
    runLaunchChecklistWith
      [ Except.error "boom", Except.ok (checkSEO envGood),
        Except.ok (checkPerformance envGood), Except.ok (checkSecurity envGood),
        Except.ok (checkFunctionality envGood), Except.ok (checkAnalytics envGood),
        Except.ok (checkDocumentation envGood), Except.ok (checkLegal envGood) ] 0
      = Except.error "boom"
  ∧ (runLaunchChecklistWith
      [ Except.error "boom", Except.ok (checkSEO envGood),
        Except.ok (checkPerformance envGood), Except.ok (checkSecurity envGood),
        Except.ok (checkFunctionality envGood), Except.ok (checkAnalytics envGood),
        Except.ok (checkDocumentation envGood), Except.ok (checkLegal envGood) ] 0).toOption
      = none :=
  ⟨rfl, rfl⟩

/-- C4 (amended): the evaluator returns a `LaunchChecklist` exactly when all
providers resolve; a provider that throws after any prefix of resolved
providers makes `runLaunchChecklist` reject with that same exception. -/
theorem runLaunchChecklistWith_spec (ts : Int) :
    (∀ provs : List (Except String ChecklistSection),
      (∃ cl, runLaunchChecklistWith provs ts = Except.ok cl) ↔
        ∀ p ∈ provs, ∃ s, p = Except.ok s)
  ∧ (∀ (pre : List (Except String ChecklistSection)) (e : String)
       (post : List (Except String ChecklistSection)),
      (∀ p ∈ pre, ∃ s, p = Except.ok s) →
      runLaunchChecklistWith (pre ++ Except.error e :: post) ts =
        Except.error e) := by
  constructor
  · intro provs
    unfold runLaunchChecklistWith
    constructor
    · rintro ⟨cl, hcl⟩
      refine (awaitSections_ok_iff provs).mp ?_
      cases hw : awaitSections provs with
      | error e => rw [hw] at hcl; exact absurd hcl (by simp)
      | ok ss => exact ⟨ss, rfl⟩
    · intro h
      obtain ⟨ss, hss⟩ := (awaitSections_ok_iff provs).mpr h
      exact ⟨buildChecklist ss ts, by rw [hss]⟩
  · intro pre e post h
    unfold runLaunchChecklistWith
    rw [awaitSections_error pre e post h]

/-- Concrete instance of `runLaunchChecklistWith_spec`: one resolved provider
followed by a throwing one rejects with the thrown error. -/
theorem runLaunchChecklistWith_spec_witness :
    runLaunchChecklistWith
      [Except.ok (checkAssets envGood), Except.error "boom"] 0 =
      Except.error "boom" :=
  (runLaunchChecklistWith_spec 0).2 [Except.ok (checkAssets envGood)] "boom" []
    (fun p hp => ⟨checkAssets envGood, by
      rw [List.mem_singleton] at hp; rw [hp]⟩)

/-- The asset step keeps its fixed id whatever its body did. -/
theorem runAssetGeneration_id (eff : AssetsEff) :
    (runAssetGeneration eff).id = "assets" := by
  unfold runAssetGeneration
  cases eff.analyze with
  | error e => rfl
  | ok n =>
    by_cases h : n > 0
    · simp only [if_pos h]
      cases eff.optimize <;> rfl
    · simp only [if_neg h]

/-- The SEO step keeps its fixed id whatever its body did. -/
theorem runSEOOptimization_id (eff : SeoEff) :
    (runSEOOptimization eff).id = "seo" := by
  unfold runSEOOptimization
  cases eff.detect <;> rfl

/-- The performance step keeps its fixed id whatever its body did. -/
theorem runPerformanceOptimization_id (eff : PerfEff) :
    (runPerformanceOptimization eff).id = "performance" := by
  unfold runPerformanceOptimization
  cases eff.optimize <;> rfl

/-- The checklist step keeps its fixed id whatever its body did. -/
theorem runLaunchChecklistValidation_id (eff : Except String LaunchChecklist) :
    (runLaunchChecklistValidation eff).id = "launch-checklist" := by
  unfold runLaunchChecklistValidation
  cases eff <;> rfl

/-- The checklist step stores the checklist exactly when the body resolved. -/
theorem runLaunchChecklistValidation_result
    (eff : Except String LaunchChecklist) :
    resultChecklist (runLaunchChecklistValidation eff).result =
      (match eff with
       | Except.ok cl => some cl
       | Except.error _ => none) := by
  cases eff <;> rfl

/-- Which steps a run records is fixed by the merged config flags and the
checklist outcome alone: earlier step failures never remove a later step,
but a thrown (or not-ready) checklist suppresses the deployment step. -/
theorem runCompleteWorkflow_step_ids (env : OrchestratorEnv)
    (config : WorkflowConfig) (elapsed : Int) :
    (runCompleteWorkflow env config elapsed).steps.map (fun s => s.id) =
      (if (mergeConfig config).skipAssets then [] else ["assets"]) ++
      (if (mergeConfig config).skipSEO then [] else ["seo"]) ++
      (if (mergeConfig config).skipPerf then [] else ["performance"]) ++
      ["launch-checklist"] ++
      (if (!(mergeConfig config).skipDeploy &&
           (match env.checklist with
            | Except.ok cl => cl.readyToLaunch
            | Except.error _ => false)) = true then ["deployment"] else []) := by
  unfold runCompleteWorkflow
  simp only [runLaunchChecklistValidation_result env.checklist]
  simp only [List.map_append, apply_ite (List.map (fun s : WorkflowStep => s.id)),
    List.map_cons, List.map_nil, runAssetGeneration_id, runSEOOptimization_id,
    runPerformanceOptimization_id, runLaunchChecklistValidation_id]
  cases hC : env.checklist with
  | error e => simp [runDeployment]
  | ok cl => cases hR : cl.readyToLaunch <;> simp [runDeployment]

/-- C5 (amended): each step function catches the exception of its own body and
records `failed` with the error text; which steps a run records depends only
on the merged config flags and the checklist step outcome — steps 1–3
failing never removes a later step, but the conditional deployment step runs
only when the checklist step produced a checklist with `readyToLaunch` true
(so a thrown checklist body suppresses it); `overallSuccess` is true iff
every recorded step ended `completed` or `skipped`. -/
theorem runCompleteWorkflow_spec (env : OrchestratorEnv)
    (config : WorkflowConfig) (elapsed : Int) :
    (∀ e, env.assets.analyze = Except.error e →
        (runAssetGeneration env.assets).status = StepStatus.failed ∧
        (runAssetGeneration env.assets).error = some e)
  ∧ (∀ e, env.seo.detect = Except.error e →
        (runSEOOptimization env.seo).status = StepStatus.failed ∧
        (runSEOOptimization env.seo).error = some e)
  ∧ (∀ e, env.perf.optimize = Except.error e →
        (runPerformanceOptimization env.perf).status = StepStatus.failed ∧
        (runPerformanceOptimization env.perf).error = some e)
  ∧ (∀ e, env.checklist = Except.error e →
        (runLaunchChecklistValidation env.checklist).status = StepStatus.failed ∧
        (runLaunchChecklistValidation env.checklist).error = some e)
  ∧ ((runCompleteWorkflow env config elapsed).steps.map (fun s => s.id) =
      (if (mergeConfig config).skipAssets then [] else ["assets"]) ++
      (if (mergeConfig config).skipSEO then [] else ["seo"]) ++
      (if (mergeConfig config).skipPerf then [] else ["performance"]) ++
      ["launch-checklist"] ++
      (if (!(mergeConfig config).skipDeploy &&
           (match env.checklist with
            | Except.ok cl => cl.readyToLaunch
            | Except.error _ => false)) = true then ["deployment"] else []))
  ∧ (runCompleteWorkflow env config elapsed).overallSuccess =
      (runCompleteWorkflow env config elapsed).steps.all
        (fun s => decide (s.status = StepStatus.completed ∨
                          s.status = StepStatus.skipped)) := by
  refine ⟨?_, ?_, ?_, ?_, runCompleteWorkflow_step_ids env config elapsed, rfl⟩
  · intro e he
    unfold runAssetGeneration
    rw [he]
    exact ⟨rfl, rfl⟩
  · intro e he
    unfold runSEOOptimization
    rw [he]
    exact ⟨rfl, rfl⟩
  · intro e he
    unfold runPerformanceOptimization
    rw [he]
    exact ⟨rfl, rfl⟩
  · intro e he
    unfold runLaunchChecklistValidation
    rw [he]
    exact ⟨rfl, rfl⟩

/-- Fully successful step-body behaviours for steps 1–3. -/
def okStepBodies : OrchestratorEnv :=
  { assets := { analyze := Except.ok 1, optimize := Except.ok [100] },
    seo := { detect := Except.ok Framework.nextApp, appSitemap := true,
             publicSitemap := false, robotsTxt := true, manifestJson := true,
             layout := true },
    perf := { optimize := Except.ok [2000000] },
    checklist := Except.ok (runLaunchChecklist envGood 0) }

/-- A config that enables the deployment step (`skipDeploy: false`). -/
def deployConfig : WorkflowConfig :=
  { skipDeploy := some false }

/-- C5 as stated is false: with deployment enabled, a run whose checklist
step body throws records only four steps — the deployment step, which the
otherwise-identical non-throwing run does execute, never runs — so a failed
step does prevent a subsequent step from running. -/
theorem runCompleteWorkflow_counterexample :
    ((runCompleteWorkflow
        { okStepBodies with checklist := Except.error "boom" }
        deployConfig 0).steps.map (fun s => s.id) =
      ["assets", "seo", "performance", "launch-checklist"])
  ∧ ((runCompleteWorkflow okStepBodies deployConfig 0).steps.map
        (fun s => s.id) =
      ["assets", "seo", "performance", "launch-checklist", "deployment"])
  ∧ ((runCompleteWorkflow
        { okStepBodies with checklist := Except.error "boom" }
        deployConfig 0).steps.map (fun s => s.status) =
      [StepStatus.completed, StepStatus.completed, StepStatus.completed,
       StepStatus.failed])
  ∧ (runCompleteWorkflow
        { okStepBodies with checklist := Except.error "boom" }
        deployConfig 0).overallSuccess = false := by
  refine ⟨?_, ?_, ?_, ?_⟩ <;> decide

/-- Concrete instance of `runCompleteWorkflow_spec`: a thrown checklist body
is recorded as a failed step carrying the error text. -/
theorem runCompleteWorkflow_spec_witness :
    (runLaunchChecklistValidation
        ({ okStepBodies with checklist := Except.error "boom" } :
          OrchestratorEnv).checklist).status = StepStatus.failed ∧
    (runLaunchChecklistValidation
        ({ okStepBodies with checklist := Except.error "boom" } :
          OrchestratorEnv).checklist).error = some "boom" :=
  (runCompleteWorkflow_spec
      { okStepBodies with checklist := Except.error "boom" }
      deployConfig 0).2.2.2.1 "boom" rfl

/-- C6: `canResumeWorkflow` is true iff the run is in progress, the current
step is strictly before the last, and the state was updated strictly less
than 24 hours ago; in particular a state whose `lastUpdate` lies 25 hours in
the past is not resumable. -/
theorem canResumeWorkflow_spec (now : Int) (state : WorkflowState) :
    (canResumeWorkflow now state = true ↔
      state.status = WorkflowStatus.inProgress ∧
      state.currentStep < state.totalSteps ∧
      now - state.lastUpdate < 24 * 60 * 60 * 1000)
  ∧ (state.lastUpdate = now - 25 * 60 * 60 * 1000 →
      canResumeWorkflow now state = false) := by
  constructor
  · unfold canResumeWorkflow
    simp [Bool.and_eq_true, decide_eq_true_eq, and_assoc]
  · intro h
    unfold canResumeWorkflow
    rw [h]
    have : ¬ (now - (now - 25 * 60 * 60 * 1000) < 24 * 60 * 60 * 1000) := by omega
    simp [this]

/-- An in-progress two-step state whose first step has completed. -/
def sampleState : WorkflowState :=
  { id := "workflow-0-x", projectRoot := "/p", startTime := 0, lastUpdate := 0,
    status := WorkflowStatus.inProgress, currentStep := 1, totalSteps := 5,
    steps := [], config := {} }

/-- Concrete instance of `canResumeWorkflow_spec`: `sampleState` observed 25
hours after its last update is stale. -/
theorem canResumeWorkflow_spec_witness :
    canResumeWorkflow (25 * 60 * 60 * 1000) sampleState = false :=
  (canResumeWorkflow_spec (25 * 60 * 60 * 1000) sampleState).2 (by decide)

/-- C7: `saveToHistory` prepends exactly one summary entry and keeps only the
10 most recent; appending to a 10-entry history yields exactly 10 entries,
newest first, with the original oldest entry (the last position) evicted;
an absent or unparsable history file is treated as the empty list. -/
theorem saveToHistory_spec (file : Option (Except String (List HistoryEntry)))
    (now : Int) (result : WorkflowResult) :
    saveToHistory file now result =
      mkHistoryEntry now result :: (loadHistoryFile file).take 9
  ∧ ((loadHistoryFile file).length = 10 →
      (saveToHistory file now result).length = 10 ∧
      (saveToHistory file now result).head? =
        some (mkHistoryEntry now result) ∧
      saveToHistory file now result =
        mkHistoryEntry now result :: (loadHistoryFile file).dropLast)
  ∧ loadHistoryFile none = []
  ∧ (∀ e, loadHistoryFile (some (Except.error e)) = []) := by
  refine ⟨?_, ?_, rfl, fun e => rfl⟩
  · unfold saveToHistory
    rw [List.take_succ_cons]
  · intro hlen
    unfold saveToHistory
    rw [List.take_succ_cons]
    refine ⟨by simp [hlen], rfl, ?_⟩
    rw [List.dropLast_eq_take, hlen]

/-- A history list already holding 10 entries. -/
def fullHistory : List HistoryEntry :=
  List.replicate 10
    (mkHistoryEntry 0
      { steps := [], overallSuccess := true, totalDuration := 0,
        summary := { assetsGenerated := 0, seoScore := 0,
                     performanceScore := 0, launchScore := 0,
                     readyToLaunch := false } })

/-- Concrete instance of `saveToHistory_spec`: the 11th append leaves exactly
10 entries. -/
theorem saveToHistory_spec_witness :
    (saveToHistory (some (Except.ok fullHistory)) 1
        { steps := [], overallSuccess := false, totalDuration := 7,
          summary := { assetsGenerated := 0, seoScore := 0,
                       performanceScore := 0, launchScore := 0,
                       readyToLaunch := false } }).length = 10 :=
  ((saveToHistory_spec (some (Except.ok fullHistory)) 1 _).2.1 (by decide)).1

/-- A completed step with id "a". -/
def stepDone : WorkflowStep :=
  { id := "a", name := "Step A", description := "first step",
    status := StepStatus.completed }

/-- The same step re-entering the `running` status. -/
def stepRerun : WorkflowStep :=
  { stepDone with status := StepStatus.running }

/-- A mid-run state: one of two steps terminal, `currentStep = 1`. -/
def midState : WorkflowState :=
  { id := "workflow-0-y", projectRoot := "/p", startTime := 0, lastUpdate := 0,
    status := WorkflowStatus.inProgress, currentStep := 1, totalSteps := 2,
    steps := [stepDone], config := {} }

/-- C8 as stated is false: upserting a non-terminal step does not recompute
`currentStep` — replacing the only completed step with a running one leaves
`currentStep = 1` while the terminal count of the updated steps is 0. -/
theorem updateWorkflowState_counterexample :
    (updateWorkflowState 5 midState stepRerun).currentStep = 1
  ∧ ((updateWorkflowState 5 midState stepRerun).steps.filter
        (fun s => isTerminalStatus s.status)).length = 0
  ∧ (updateWorkflowState 5 midState stepRerun).currentStep ≠
      ((updateWorkflowState 5 midState stepRerun).steps.filter
        (fun s => isTerminalStatus s.status)).length := by
  refine ⟨?_, ?_, ?_⟩ <;> decide

/-- C8 (amended): `updateWorkflowState` upserts the step by id (replacing
the first step with the same id, else appending), always refreshes
`lastUpdate`, recomputes `currentStep` as the count of terminal steps only
when the incoming step status is terminal (otherwise `currentStep` is
unchanged), and finally sets the overall status to `failed` or `completed`
exactly when the resulting `currentStep` is at least `totalSteps` (which is
itself unchanged). -/
theorem updateWorkflowState_spec (now : Int) (state : WorkflowState)
    (step : WorkflowStep) :
    (updateWorkflowState now state step).lastUpdate = now
  ∧ (∀ i, state.steps.findIdx? (fun s => s.id = step.id) = some i →
      (updateWorkflowState now state step).steps = state.steps.set i step)
  ∧ (state.steps.findIdx? (fun s => s.id = step.id) = none →
      (updateWorkflowState now state step).steps = state.steps ++ [step])
  ∧ (isTerminalStatus step.status = true →
      (updateWorkflowState now state step).currentStep =
        ((updateWorkflowState now state step).steps.filter
          (fun s => isTerminalStatus s.status)).length)
  ∧ (isTerminalStatus step.status = false →
      (updateWorkflowState now state step).currentStep = state.currentStep)
  ∧ (updateWorkflowState now state step).totalSteps = state.totalSteps
  ∧ (updateWorkflowState now state step).status =
      (if (updateWorkflowState now state step).currentStep ≥ state.totalSteps then
        (if (updateWorkflowState now state step).steps.any
              (fun s => s.status = StepStatus.failed) then
          WorkflowStatus.failed
        else WorkflowStatus.completed)
      else state.status) := by
  refine ⟨?_, ?_, ?_, ?_, ?_, ?_, ?_⟩
  · simp only [updateWorkflowState]
    cases hidx : List.findIdx? (fun s => decide (s.id = step.id)) state.steps <;>
      cases hterm : isTerminalStatus step.status <;>
        simp [hterm] <;> split <;> rfl
  · intro j hj
    simp only [updateWorkflowState]
    rw [hj]
    cases hterm : isTerminalStatus step.status <;>
      simp [hterm] <;> split <;> rfl
  · intro hnone
    simp only [updateWorkflowState]
    rw [hnone]
    cases hterm : isTerminalStatus step.status <;>
      simp [hterm] <;> split <;> rfl
  · intro hterm
    simp only [updateWorkflowState]
    cases hidx : List.findIdx? (fun s => decide (s.id = step.id)) state.steps <;>
      simp [hterm] <;> split <;> simp [List.filter_append, hterm]
  · intro hterm
    simp only [updateWorkflowState]
    cases hidx : List.findIdx? (fun s => decide (s.id = step.id)) state.steps <;>
      simp [hterm] <;> split <;> rfl
  · simp only [updateWorkflowState]
    cases hidx : List.findIdx? (fun s => decide (s.id = step.id)) state.steps <;>
      cases hterm : isTerminalStatus step.status <;>
        simp [hterm] <;> split <;> rfl
  · simp only [updateWorkflowState]
    cases hidx : List.findIdx? (fun s => decide (s.id = step.id)) state.steps <;>
      cases hterm : isTerminalStatus step.status <;>
        simp [hterm] <;> split <;>
          first
          | rfl
          | (exact if_congr
              (by constructor
                  · rintro (⟨x, hx, hfx⟩ | hfs)
                    · exact ⟨x, List.mem_append_left _ hx, hfx⟩
                    · exact ⟨step, List.mem_append_right _ (List.mem_singleton.mpr rfl), hfs⟩
                  · rintro ⟨x, hx, hfx⟩
                    rcases List.mem_append.mp hx with hx | hx
                    · exact Or.inl ⟨x, hx, hfx⟩
                    · exact Or.inr (List.mem_singleton.mp hx ▸ hfx))
              rfl rfl)

/-- A freshly completed second step with a new id. -/
def stepB : WorkflowStep :=
  { id := "b", name := "Step B", description := "second step",
    status := StepStatus.completed }

/-- Concrete instance of `updateWorkflowState_spec`: appending a terminal
step recomputes `currentStep` as the terminal count of the updated list. -/
theorem updateWorkflowState_spec_witness :
    (updateWorkflowState 5 midState stepB).currentStep =
      ((updateWorkflowState 5 midState stepB).steps.filter
        (fun s => isTerminalStatus s.status)).length :=
  (updateWorkflowState_spec 5 midState stepB).2.2.2.1 rfl

/-- C9 as stated is false: `createWorkflowState` performs no validation, so
with the degenerate `totalSteps = 0` it returns a perfectly ordinary
`WorkflowState` instead of throwing (the source body is a plain object
literal with no `throw` and no check of its arguments). -/
theorem createWorkflowState_counterexample :
    createWorkflowState "/p" 0 {} 0 "r" =
      { id := "workflow-0-r", projectRoot := "/p", startTime := 0,
        lastUpdate := 0, status := WorkflowStatus.inProgress,
        currentStep := 0, totalSteps := 0, steps := [], config := {} } := by
  decide

/-- C9 (amended): `createWorkflowState` with `totalSteps = 0` does not fail
fast; it returns a normal in-progress state with `currentStep = 0`,
`totalSteps = 0` and no steps. -/
theorem createWorkflowState_spec (projectRoot : String)
    (config : WorkflowConfig) (now : Int) (rand : String) :
    (createWorkflowState projectRoot 0 config now rand).status =
        WorkflowStatus.inProgress
  ∧ (createWorkflowState projectRoot 0 config now rand).currentStep = 0
  ∧ (createWorkflowState projectRoot 0 config now rand).totalSteps = 0
  ∧ (createWorkflowState projectRoot 0 config now rand).steps = []
  ∧ (createWorkflowState projectRoot 0 config now rand).startTime = now
  ∧ (createWorkflowState projectRoot 0 config now rand).lastUpdate = now :=
  ⟨rfl, rfl, rfl, rfl, rfl, rfl⟩
